import Mathlib

/-!
Verification of the credential-state machine and request-interception
protocol of `example/fastapi_client/auth.py`.

The mutable Python objects are embedded as pure values: header maps are
association lists with case-insensitive keys (mirroring httpx headers),
the external collaborators (`call_next` and the `PasswordFlowClient`
token endpoints) are given by an oracle `Env`, and `AuthMiddleware.__call__`
becomes a function returning the final response together with the mutated
request, the final credential state and an instrumentation trace of the
calls made.
-/

namespace FastapiClient

/-- Header map of an outgoing request, as an association list.
Keys are matched case-insensitively and stored lowercased, mirroring
httpx's case-insensitive header mapping. -/
abbrev Headers : Type := List (String × String)

/-- Per-character lowercasing of a header key, the normalization httpx
applies to make its header mapping case-insensitive (equivalent to
`str.lower()` on ASCII keys). -/
def lowerKey (s : String) : String := ⟨s.data.map Char.toLower⟩

/-- Case-insensitive lookup: `request.headers[key]` / `key in request.headers`. -/
def Headers.get (hs : Headers) (k : String) : Option String :=
  (List.find? (fun p => lowerKey p.1 == lowerKey k) hs).map Prod.snd

/-- Assignment `request.headers[key] = value`: replace any existing entries for the key. -/
def Headers.set (hs : Headers) (k v : String) : Headers :=
  List.filter (fun p => lowerKey p.1 != lowerKey k) hs ++ [(lowerKey k, v)]

/-- Python `request.headers.setdefault(key, value)`: set only if the key is absent. -/
def Headers.setdefault (hs : Headers) (k v : String) : Headers :=
  if (hs.get k).isSome then hs else hs ++ [(lowerKey k, v)]

/-- The mutable outbound request (`httpx.AsyncRequest`): only its header map
is touched by the middleware; `body` stands for the rest of the request. -/
structure Request where
  headers : Headers
  body : String

/-- The response value (`httpx.AsyncResponse`): the middleware reads only
`status_code`; `body` stands for the rest of the response. -/
structure Response where
  status_code : Nat
  body : String
deriving DecidableEq

/-- Constant `starlette.status.HTTP_401_UNAUTHORIZED`. -/
def HTTP_401_UNAUTHORIZED : Nat := 401

/-- Class `AuthState` (pydantic model in `auth.py`): all fields optional. -/
structure AuthState where
  username : Option String
  password : Option String
  access_token : Option String
  refresh_token : Option String
  scope : Option String
deriving DecidableEq

/-- Modelled from the spec: `AccessTokenRequest` from
`fastapi_client.password_flow_client` (not under `src/`) carries
`username`, `password` and an optional `scope`. -/
structure AccessTokenRequest where
  username : String
  password : String
  scope : Option String
deriving DecidableEq

/-- Modelled from the spec: `RefreshTokenRequest` from
`fastapi_client.password_flow_client` (not under `src/`) carries
`refresh_token` and an optional `scope`. -/
structure RefreshTokenRequest where
  refresh_token : String
  scope : Option String
deriving DecidableEq

/-- Modelled from the spec: `TokenSuccessResponse` from
`fastapi_client.password_flow_client` (not under `src/`) carries
`access_token`, optional `refresh_token` and optional `scope`. -/
structure TokenSuccessResponse where
  access_token : String
  refresh_token : Option String
  scope : Option String
deriving DecidableEq

/-- Method `AuthState.access_token_request`. -/
def AuthState.access_token_request (s : AuthState) : Option AccessTokenRequest :=
  match s.username, s.password with
  | some u, some p => some ⟨u, p, s.scope⟩
  | _, _ => none

/-- Method `AuthState.refresh_token_request`. -/
def AuthState.refresh_token_request (s : AuthState) : Option RefreshTokenRequest :=
  match s.refresh_token with
  | some r => some ⟨r, s.scope⟩
  | none => none

/-- Method `AuthState.update`. -/
def AuthState.update (s : AuthState) (t : TokenSuccessResponse) : AuthState :=
  { s with
    access_token := some t.access_token
    refresh_token := t.refresh_token
    scope := t.scope }

/-- Modelled from the spec: the outcome of one `PasswordFlowClient`
token-endpoint call as observed by `auth.py`: a `TokenSuccessResponse`,
a returned value that is not a `TokenSuccessResponse` (the `isinstance`
check in `login`/`refresh` fails), or a raised `UnexpectedResponse`
(the only error kind the middleware suppresses; other errors propagate
out of the middleware and are outside this model). -/
inductive ExchangeOutcome where
  | success (r : TokenSuccessResponse)
  | otherResponse
  | unexpectedResponse
deriving DecidableEq

/-- The external collaborators of `AuthMiddleware.__call__`: the `call_next`
continuation (indexed by how many `call_next` calls were already made, so the
two downstream calls may answer differently) and the two token-endpoint
operations of the `PasswordFlowClient`. -/
structure Env where
  callNext : Nat → Request → Response
  requestRefreshToken : RefreshTokenRequest → ExchangeOutcome
  requestAccessToken : AccessTokenRequest → ExchangeOutcome

namespace AuthMiddleware

/-- Method `AuthMiddleware.set_access_header`. -/
def set_access_header (token : String) (request : Request) (replace : Bool) : Request :=
  let key := "authorization"
  let value := "bearer " ++ token
  if replace then { request with headers := request.headers.set key value }
  else { request with headers := request.headers.setdefault key value }

/-- Method `AuthMiddleware.login`: result, new credential state, and whether the
token endpoint was actually called. -/
def login (s : AuthState) (env : Env) :
    Option TokenSuccessResponse × AuthState × Bool :=
  match s.access_token_request with
  | none => (none, s, false)
  | some req =>
    match env.requestAccessToken req with
    | .success r => (some r, s.update r, true)
    | .otherResponse => (none, s, true)
    | .unexpectedResponse => (none, s, true)

/-- Method `AuthMiddleware.refresh`: result, new credential state, and whether the
token endpoint was actually called. -/
def refresh (s : AuthState) (env : Env) :
    Option TokenSuccessResponse × AuthState × Bool :=
  match s.refresh_token_request with
  | none => (none, s, false)
  | some req =>
    match env.requestRefreshToken req with
    | .success r => (some r, s.update r, true)
    | .otherResponse => (none, s, true)
    | .unexpectedResponse => (none, s, true)

/-- Instrumentation of one `__call__` execution: how many times `call_next`
ran, whether `refresh()` / `login()` were invoked, and whether their
token-endpoint calls were actually made. -/
structure Trace where
  nextCount : Nat
  refreshInvoked : Bool
  loginInvoked : Bool
  refreshEndpointCalled : Bool
  loginEndpointCalled : Bool
deriving DecidableEq

/-- Everything observable after one `__call__` execution: the returned
response, the (mutated) request, the final credential state and the trace. -/
structure InterceptOutcome where
  response : Response
  request : Request
  state : AuthState
  trace : Trace

/-- The pre-flight attach step of `__call__`: if an access token is present,
set the authorization header non-destructively. -/
def attach_step (s : AuthState) (request : Request) : Request :=
  match s.access_token with
  | some t => set_access_header t request false
  | none => request

/-- Method `AuthMiddleware.__call__` (the `intercept` operation of the spec). -/
def intercept (s : AuthState) (env : Env) (request : Request) : InterceptOutcome :=
  let req1 := attach_step s request
  let response := env.callNext 0 req1
  if response.status_code ≠ HTTP_401_UNAUTHORIZED then
    ⟨response, req1, s, ⟨1, false, false, false, false⟩⟩
  else
    let rres := refresh s env
    let loginNeeded := rres.1.isNone
    let lres :=
      match rres.1 with
      | some r => (some r, rres.2.1, false)
      | none => login rres.2.1 env
    match lres.1 with
    | some tok =>
      let req2 := set_access_header tok.access_token req1 true
      ⟨env.callNext 1 req2, req2, lres.2.1,
        ⟨2, true, loginNeeded, rres.2.2, lres.2.2⟩⟩
    | none =>
      ⟨response, req1, lres.2.1,
        ⟨1, true, loginNeeded, rres.2.2, lres.2.2⟩⟩

/-- The value `tokens` holds at the retry decision point of `__call__`:
the refresh result, or the login result when refresh yielded `None`. -/
def recovered_tokens (s : AuthState) (env : Env) : Option TokenSuccessResponse :=
  match (refresh s env).1 with
  | some r => some r
  | none => (login (refresh s env).2.1 env).1

end AuthMiddleware

/-! ### Header-map lemmas -/

theorem Headers.get_eq_none_iff (hs : Headers) (k : String) :
    hs.get k = none ↔
      List.find? (fun p => lowerKey p.1 == lowerKey k) hs = none := by
  unfold Headers.get
  cases List.find? (fun p => lowerKey p.1 == lowerKey k) hs <;> simp

theorem Headers.get_congr (hs : Headers) (k k' : String)
    (h : lowerKey k = lowerKey k') : hs.get k = hs.get k' := by
  unfold Headers.get
  rw [h]

theorem Headers.get_set_self (hs : Headers) (k v : String)
    (hk : lowerKey (lowerKey k) = lowerKey k) : (hs.set k v).get k = some v := by
  unfold Headers.set Headers.get
  rw [List.find?_append]
  have h1 : List.find? (fun p => lowerKey p.1 == lowerKey k)
      (List.filter (fun p => lowerKey p.1 != lowerKey k) hs) = none := by
    rw [List.find?_eq_none]
    intro x hx
    have hmem := List.mem_filter.mp hx
    simpa using hmem.2
  rw [h1]
  simp [List.find?, hk]

theorem Headers.get_setdefault_of_none (hs : Headers) (k v : String)
    (h : hs.get k = none) (hk : lowerKey (lowerKey k) = lowerKey k) :
    (hs.setdefault k v).get k = some v := by
  unfold Headers.setdefault
  rw [h]
  simp only [Option.isSome_none, Bool.false_eq_true, if_false]
  unfold Headers.get
  rw [List.find?_append, (Headers.get_eq_none_iff hs k).mp h]
  simp [List.find?, hk]

theorem Headers.setdefault_of_some (hs : Headers) (k v w : String)
    (h : hs.get k = some w) : hs.setdefault k v = hs := by
  unfold Headers.setdefault
  rw [h]
  simp

/-! ### Claims about `AuthState` -/

/-- C6: `access_token_request` returns `none` exactly when `username` or
`password` is `none`; otherwise it returns a request carrying exactly the
state's username, password and scope (scope passed through as-is). -/
theorem access_token_request_correct (s : AuthState) :
    (s.access_token_request = none ↔ s.username = none ∨ s.password = none) ∧
    (∀ u p, s.username = some u → s.password = some p →
      s.access_token_request = some ⟨u, p, s.scope⟩) := by
  constructor
  · cases hu : s.username <;> cases hp : s.password <;>
      simp [AuthState.access_token_request, hu, hp]
  · intro u p hu hp
    simp [AuthState.access_token_request, hu, hp]

theorem access_token_request_correct_witness :
    (AuthState.access_token_request
        ⟨some "user", some "pw", none, none, some "sc"⟩)
      = some ⟨"user", "pw", some "sc"⟩ :=
  (access_token_request_correct
      ⟨some "user", some "pw", none, none, some "sc"⟩).2 "user" "pw" rfl rfl

/-- C7: `refresh_token_request` returns `none` exactly when `refresh_token`
is `none`; otherwise it returns a request carrying exactly the state's
refresh token and scope. -/
theorem refresh_token_request_correct (s : AuthState) :
    (s.refresh_token_request = none ↔ s.refresh_token = none) ∧
    (∀ r, s.refresh_token = some r →
      s.refresh_token_request = some ⟨r, s.scope⟩) := by
  constructor
  · cases hr : s.refresh_token <;> simp [AuthState.refresh_token_request, hr]
  · intro r hr
    simp [AuthState.refresh_token_request, hr]

theorem refresh_token_request_correct_witness :
    (AuthState.refresh_token_request ⟨none, none, none, some "R1", some "sc"⟩)
      = some ⟨"R1", some "sc"⟩ :=
  (refresh_token_request_correct
      ⟨none, none, none, some "R1", some "sc"⟩).2 "R1" rfl

/-- C8: two successive `update`s leave the token/scope fields equal to the
second response's fields exactly: no merging with the first response or with
the prior state; an absent response `refresh_token`/`scope` makes the state
field absent. -/
theorem update_overwrites (s : AuthState) (r1 r2 : TokenSuccessResponse) :
    ((s.update r1).update r2).access_token = some r2.access_token ∧
    ((s.update r1).update r2).refresh_token = r2.refresh_token ∧
    ((s.update r1).update r2).scope = r2.scope := by
  simp [AuthState.update]

theorem refresh_frame (s : AuthState) (env : Env) :
    (AuthMiddleware.refresh s env).2.1.username = s.username ∧
    (AuthMiddleware.refresh s env).2.1.password = s.password := by
  unfold AuthMiddleware.refresh
  cases hrq : s.refresh_token_request with
  | none => simp
  | some rq =>
      cases ho : env.requestRefreshToken rq <;> simp [ho, AuthState.update]

theorem login_frame (s : AuthState) (env : Env) :
    (AuthMiddleware.login s env).2.1.username = s.username ∧
    (AuthMiddleware.login s env).2.1.password = s.password := by
  unfold AuthMiddleware.login
  cases haq : s.access_token_request with
  | none => simp
  | some aq =>
      cases ho : env.requestAccessToken aq <;> simp [ho, AuthState.update]

/-- C9: no operation of the middleware mutates `username` or `password`:
`update`, `refresh`, `login` and `intercept` all leave them unchanged. -/
theorem credentials_never_mutated (s : AuthState) (env : Env) (req : Request)
    (r : TokenSuccessResponse) :
    ((s.update r).username = s.username ∧ (s.update r).password = s.password) ∧
    ((AuthMiddleware.refresh s env).2.1.username = s.username ∧
      (AuthMiddleware.refresh s env).2.1.password = s.password) ∧
    ((AuthMiddleware.login s env).2.1.username = s.username ∧
      (AuthMiddleware.login s env).2.1.password = s.password) ∧
    ((AuthMiddleware.intercept s env req).state.username = s.username ∧
      (AuthMiddleware.intercept s env req).state.password = s.password) := by
  refine ⟨⟨rfl, rfl⟩, refresh_frame s env, login_frame s env, ?_⟩
  simp only [AuthMiddleware.intercept]
  split
  · exact ⟨rfl, rfl⟩
  · cases hr : (AuthMiddleware.refresh s env).1 with
    | some tok => simpa [hr] using refresh_frame s env
    | none =>
      cases hl :
          (AuthMiddleware.login (AuthMiddleware.refresh s env).2.1 env).1 with
      | some tok =>
        have h1 := login_frame (AuthMiddleware.refresh s env).2.1 env
        have h2 := refresh_frame s env
        simp only [hr, hl]
        exact ⟨h1.1.trans h2.1, h1.2.trans h2.2⟩
      | none =>
        have h1 := login_frame (AuthMiddleware.refresh s env).2.1 env
        have h2 := refresh_frame s env
        simp only [hr, hl]
        exact ⟨h1.1.trans h2.1, h1.2.trans h2.2⟩

/-- C10: a `refresh` or `login` call that yields `none` — request
inapplicable, `UnexpectedResponse`, or a non-`TokenSuccessResponse` reply —
leaves the credential state entirely unchanged. -/
theorem failed_exchange_preserves_state (s : AuthState) (env : Env) :
    ((AuthMiddleware.refresh s env).1 = none →
      (AuthMiddleware.refresh s env).2.1 = s) ∧
    ((AuthMiddleware.login s env).1 = none →
      (AuthMiddleware.login s env).2.1 = s) := by
  constructor
  · unfold AuthMiddleware.refresh
    cases hrq : s.refresh_token_request with
    | none => intro _; rfl
    | some rq => cases ho : env.requestRefreshToken rq <;> simp [ho]
  · unfold AuthMiddleware.login
    cases haq : s.access_token_request with
    | none => intro _; rfl
    | some aq => cases ho : env.requestAccessToken aq <;> simp [ho]

theorem failed_exchange_preserves_state_witness :
    (AuthMiddleware.refresh ⟨some "u", some "p", none, none, none⟩
        ⟨fun _ _ => ⟨401, "e"⟩, fun _ => .unexpectedResponse,
          fun _ => .unexpectedResponse⟩).2.1
      = ⟨some "u", some "p", none, none, none⟩ ∧
    (AuthMiddleware.login ⟨some "u", some "p", none, none, none⟩
        ⟨fun _ _ => ⟨401, "e"⟩, fun _ => .unexpectedResponse,
          fun _ => .unexpectedResponse⟩).2.1
      = ⟨some "u", some "p", none, none, none⟩ :=
  ⟨(failed_exchange_preserves_state _ _).1 rfl,
    (failed_exchange_preserves_state _ _).2 rfl⟩

/-! ### The pre-flight attach step -/

/-- C5: in the pre-flight attach step, a present access token is attached as
exactly `"bearer " ++ token` under the case-insensitive key `authorization`
only when the request has no such header yet; a caller-supplied header wins;
with no access token nothing is attached. -/
theorem attach_step_correct (s : AuthState) (req : Request) :
    (∀ t, s.access_token = some t → req.headers.get "authorization" = none →
      (AuthMiddleware.attach_step s req).headers.get "authorization"
        = some ("bearer " ++ t) ∧
      (AuthMiddleware.attach_step s req).headers.get "Authorization"
        = some ("bearer " ++ t)) ∧
    (∀ v, req.headers.get "authorization" = some v →
      AuthMiddleware.attach_step s req = req) ∧
    (s.access_token = none → AuthMiddleware.attach_step s req = req) := by
  have hk : lowerKey (lowerKey "authorization") = lowerKey "authorization" := by decide
  refine ⟨?_, ?_, ?_⟩
  · intro t ht hnone
    have h1 : (AuthMiddleware.attach_step s req).headers.get "authorization"
        = some ("bearer " ++ t) := by
      simp only [AuthMiddleware.attach_step, ht,
        AuthMiddleware.set_access_header, if_neg, Bool.false_eq_true,
        if_false]
      exact Headers.get_setdefault_of_none _ _ _ hnone hk
    refine ⟨h1, ?_⟩
    rw [Headers.get_congr _ "Authorization" "authorization" (by decide)]
    exact h1
  · intro v hv
    cases ht : s.access_token with
    | none => simp [AuthMiddleware.attach_step, ht]
    | some t =>
      simp only [AuthMiddleware.attach_step, ht,
        AuthMiddleware.set_access_header, Bool.false_eq_true, if_false]
      rw [Headers.setdefault_of_some _ _ _ v hv]
  · intro h
    simp [AuthMiddleware.attach_step, h]

theorem attach_step_correct_witness :
    ((AuthMiddleware.attach_step ⟨none, none, some "T1", none, none⟩
        ⟨[], "b"⟩).headers.get "authorization" = some ("bearer " ++ "T1") ∧
      (AuthMiddleware.attach_step ⟨none, none, some "T1", none, none⟩
        ⟨[], "b"⟩).headers.get "Authorization" = some ("bearer " ++ "T1")) ∧
    AuthMiddleware.attach_step ⟨none, none, some "T1", none, none⟩
        ⟨[("authorization", "custom")], "b"⟩
      = ⟨[("authorization", "custom")], "b"⟩ ∧
    AuthMiddleware.attach_step ⟨none, none, none, some "R1", none⟩ ⟨[], "b"⟩
      = ⟨[], "b"⟩ :=
  ⟨(attach_step_correct ⟨none, none, some "T1", none, none⟩ ⟨[], "b"⟩).1
      "T1" rfl rfl,
    (attach_step_correct ⟨none, none, some "T1", none, none⟩
        ⟨[("authorization", "custom")], "b"⟩).2.1 "custom" (by decide),
    (attach_step_correct ⟨none, none, none, some "R1", none⟩ ⟨[], "b"⟩).2.2
      rfl⟩

/-! ### Concrete fixtures used by the witnesses -/

/-- A credential state with full credentials, an access token and a refresh
token. -/
def stateR : AuthState := ⟨some "user", some "pw", some "T1", some "R1", none⟩

/-- A plain request with no headers. -/
def reqEmpty : Request := ⟨[], "body"⟩

/-- Environment whose downstream always answers 200. -/
def envOk : Env :=
  ⟨fun _ _ => ⟨200, "ok"⟩, fun _ => .unexpectedResponse,
    fun _ => .unexpectedResponse⟩

/-- Environment whose downstream answers 401 first and 200 on the retry,
with a succeeding refresh endpoint. -/
def env401RefreshOk : Env :=
  ⟨fun n _ => if n = 0 then ⟨401, "unauth"⟩ else ⟨200, "ok"⟩,
    fun _ => .success ⟨"T2", some "R2", none⟩,
    fun _ => .unexpectedResponse⟩

/-- Environment whose downstream always answers 401 and whose token
endpoints both fail with `UnexpectedResponse`. -/
def env401AllFail : Env :=
  ⟨fun _ _ => ⟨401, "unauth"⟩, fun _ => .unexpectedResponse,
    fun _ => .unexpectedResponse⟩

/-! ### Claims about `__call__` (`intercept`) -/

/-- C4: when the first downstream response is not a 401 it is returned
unchanged, `call_next` ran exactly once, neither `refresh()` nor `login()`
was invoked (so no token-endpoint call was made), and the credential state
is untouched. -/
theorem intercept_non_401_passthrough (s : AuthState) (env : Env)
    (req : Request)
    (h : (env.callNext 0 (AuthMiddleware.attach_step s req)).status_code
      ≠ HTTP_401_UNAUTHORIZED) :
    (AuthMiddleware.intercept s env req).response
      = env.callNext 0 (AuthMiddleware.attach_step s req) ∧
    (AuthMiddleware.intercept s env req).trace
      = ⟨1, false, false, false, false⟩ ∧
    (AuthMiddleware.intercept s env req).state = s := by
  simp only [AuthMiddleware.intercept, if_pos h]
  exact ⟨trivial, trivial, trivial⟩

theorem intercept_non_401_passthrough_witness :
    (AuthMiddleware.intercept stateR envOk reqEmpty).response = ⟨200, "ok"⟩ ∧
    (AuthMiddleware.intercept stateR envOk reqEmpty).trace
      = ⟨1, false, false, false, false⟩ ∧
    (AuthMiddleware.intercept stateR envOk reqEmpty).state = stateR :=
  intercept_non_401_passthrough stateR envOk reqEmpty (by decide)

/-- C1: on a first-response 401, `refresh()` is always invoked; `login()` is
invoked exactly when `refresh()` returned `None`; and whenever `refresh()`
returns a token response, neither `login()` nor its token-endpoint call is
ever attempted. -/
theorem intercept_refresh_before_login (s : AuthState) (env : Env)
    (req : Request)
    (h401 : (env.callNext 0 (AuthMiddleware.attach_step s req)).status_code
      = HTTP_401_UNAUTHORIZED) :
    (AuthMiddleware.intercept s env req).trace.refreshInvoked = true ∧
    ((AuthMiddleware.intercept s env req).trace.loginInvoked = true ↔
      (AuthMiddleware.refresh s env).1 = none) ∧
    (∀ r, (AuthMiddleware.refresh s env).1 = some r →
      (AuthMiddleware.intercept s env req).trace.loginInvoked = false ∧
      (AuthMiddleware.intercept s env req).trace.loginEndpointCalled
        = false) := by
  simp only [AuthMiddleware.intercept, h401, ne_eq, not_true_eq_false,
    if_false]
  cases hr : (AuthMiddleware.refresh s env).1 with
  | some tok => simp [hr]
  | none =>
    cases hl :
        (AuthMiddleware.login (AuthMiddleware.refresh s env).2.1 env).1 with
    | some tok => simp [hr, hl]
    | none => simp [hr, hl]

theorem intercept_refresh_before_login_witness :
    (AuthMiddleware.intercept stateR env401RefreshOk reqEmpty).trace.loginInvoked
      = false ∧
    (AuthMiddleware.intercept stateR env401RefreshOk
        reqEmpty).trace.loginEndpointCalled = false :=
  (intercept_refresh_before_login stateR env401RefreshOk reqEmpty rfl).2.2
    ⟨"T2", some "R2", none⟩ rfl

/-- C2: on a first-response 401, once refresh or login yields a token
response `tok`, the request's authorization header is overwritten
unconditionally (replace semantics) with `"bearer " ++ tok.access_token`,
`call_next` runs exactly one more time (two in total), and its response is
returned unchanged as the final result — with no further recovery even if
the retry is itself a 401, since the conclusion holds for every value of
the second response. -/
theorem intercept_retry_once (s : AuthState) (env : Env) (req : Request)
    (tok : TokenSuccessResponse)
    (h401 : (env.callNext 0 (AuthMiddleware.attach_step s req)).status_code
      = HTTP_401_UNAUTHORIZED)
    (htok : AuthMiddleware.recovered_tokens s env = some tok) :
    (AuthMiddleware.intercept s env req).request
      = AuthMiddleware.set_access_header tok.access_token
          (AuthMiddleware.attach_step s req) true ∧
    (AuthMiddleware.intercept s env req).request.headers.get "authorization"
      = some ("bearer " ++ tok.access_token) ∧
    (AuthMiddleware.intercept s env req).response
      = env.callNext 1 (AuthMiddleware.intercept s env req).request ∧
    (AuthMiddleware.intercept s env req).trace.nextCount = 2 := by
  have hk : lowerKey (lowerKey "authorization") = lowerKey "authorization" := by
    decide
  have hmain : (AuthMiddleware.intercept s env req).request
      = AuthMiddleware.set_access_header tok.access_token
          (AuthMiddleware.attach_step s req) true ∧
      (AuthMiddleware.intercept s env req).response
        = env.callNext 1 (AuthMiddleware.set_access_header tok.access_token
            (AuthMiddleware.attach_step s req) true) ∧
      (AuthMiddleware.intercept s env req).trace.nextCount = 2 := by
    simp only [AuthMiddleware.intercept, h401, ne_eq, not_true_eq_false,
      if_false]
    cases hr : (AuthMiddleware.refresh s env).1 with
    | some r =>
      have hrt : r = tok := by
        have h := htok
        simp [AuthMiddleware.recovered_tokens, hr] at h
        exact h
      subst hrt
      simp [hr]
    | none =>
      cases hl :
          (AuthMiddleware.login (AuthMiddleware.refresh s env).2.1 env).1 with
      | some r =>
        have hrt : r = tok := by
          have h := htok
          simp [AuthMiddleware.recovered_tokens, hr, hl] at h
          exact h
        subst hrt
        simp [hr, hl]
      | none =>
        exfalso
        simp [AuthMiddleware.recovered_tokens, hr, hl] at htok
  refine ⟨hmain.1, ?_, ?_, hmain.2.2⟩
  · rw [hmain.1]
    simp only [AuthMiddleware.set_access_header, if_pos]
    exact Headers.get_set_self _ _ _ hk
  · rw [hmain.2.1, hmain.1]

theorem intercept_retry_once_witness :
    (AuthMiddleware.intercept stateR env401RefreshOk
        reqEmpty).trace.nextCount = 2 ∧
    (AuthMiddleware.intercept stateR env401RefreshOk
        reqEmpty).request.headers.get "authorization"
      = some ("bearer " ++ "T2") :=
  ⟨(intercept_retry_once stateR env401RefreshOk reqEmpty
      ⟨"T2", some "R2", none⟩ rfl rfl).2.2.2,
    (intercept_retry_once stateR env401RefreshOk reqEmpty
      ⟨"T2", some "R2", none⟩ rfl rfl).2.1⟩

/-- C3: an `UnexpectedResponse` from the token endpoint inside `refresh` or
`login` is converted locally to `None`; after a refresh that yielded `None`,
`login()` is still attempted; and when both recovery paths yield nothing,
the original 401 response is returned unchanged (the interceptor, a total
function here, raises no auth-specific error). -/
theorem unexpected_response_suppressed (s : AuthState) (env : Env)
    (req : Request) :
    (∀ rq, s.refresh_token_request = some rq →
      env.requestRefreshToken rq = .unexpectedResponse →
      (AuthMiddleware.refresh s env).1 = none) ∧
    (∀ aq, s.access_token_request = some aq →
      env.requestAccessToken aq = .unexpectedResponse →
      (AuthMiddleware.login s env).1 = none) ∧
    ((env.callNext 0 (AuthMiddleware.attach_step s req)).status_code
        = HTTP_401_UNAUTHORIZED →
      (AuthMiddleware.refresh s env).1 = none →
      (AuthMiddleware.intercept s env req).trace.loginInvoked = true) ∧
    ((env.callNext 0 (AuthMiddleware.attach_step s req)).status_code
        = HTTP_401_UNAUTHORIZED →
      AuthMiddleware.recovered_tokens s env = none →
      (AuthMiddleware.intercept s env req).response
        = env.callNext 0 (AuthMiddleware.attach_step s req)) := by
  refine ⟨?_, ?_, ?_, ?_⟩
  · intro rq hrq ho
    simp [AuthMiddleware.refresh, hrq, ho]
  · intro aq haq ho
    simp [AuthMiddleware.login, haq, ho]
  · intro h401 hr
    simp only [AuthMiddleware.intercept, h401, ne_eq, not_true_eq_false,
      if_false]
    cases hl :
        (AuthMiddleware.login (AuthMiddleware.refresh s env).2.1 env).1 with
    | some tok => simp [hr, hl]
    | none => simp [hr, hl]
  · intro h401 hnone
    cases hr : (AuthMiddleware.refresh s env).1 with
    | some tok => simp [AuthMiddleware.recovered_tokens, hr] at hnone
    | none =>
      have hl : (AuthMiddleware.login (AuthMiddleware.refresh s env).2.1
          env).1 = none := by
        simpa [AuthMiddleware.recovered_tokens, hr] using hnone
      simp only [AuthMiddleware.intercept, h401, ne_eq, not_true_eq_false,
        if_false]
      simp [hr, hl]

theorem unexpected_response_suppressed_witness :
    (AuthMiddleware.refresh stateR env401AllFail).1 = none ∧
    (AuthMiddleware.login stateR env401AllFail).1 = none ∧
    (AuthMiddleware.intercept stateR env401AllFail
        reqEmpty).trace.loginInvoked = true ∧
    (AuthMiddleware.intercept stateR env401AllFail reqEmpty).response
      = ⟨401, "unauth"⟩ :=
  ⟨(unexpected_response_suppressed stateR env401AllFail reqEmpty).1
      ⟨"R1", none⟩ rfl rfl,
    (unexpected_response_suppressed stateR env401AllFail reqEmpty).2.1
      ⟨"user", "pw", none⟩ rfl rfl,
    (unexpected_response_suppressed stateR env401AllFail reqEmpty).2.2.1
      rfl rfl,
    (unexpected_response_suppressed stateR env401AllFail reqEmpty).2.2.2
      rfl rfl⟩

end FastapiClient
